import Mathlib

/-!
Verification of the registration-tracking adapter (`IoSource`) and the
cross-thread `Waker` of the mio registration layer.

The Rust sources embedded here are `src/io_source.rs` and `src/waker.rs`.
The `sys` layer (`IoSourceState`, `sys::Waker`, the selector behind a
`Registry`) is an external collaborator that is not part of those files;
where a claim needs it, it is modelled from the specification and marked
as such in the doc comment.

Conventions of the embedding:
* Rust `io::Result<T>` becomes `Except IoError T`.
* The `AtomicUsize` inside `SelectorId` becomes a plain `Nat`; the
  sequential semantics of `swap`/`load` is made explicit: operations
  return the pair (call result, state afterwards).
* `&mut self` methods on `IoSource` likewise return the updated record.
-/

namespace MioSpec

/-- The Rust `io::ErrorKind` variants used by this layer. -/
inductive ErrorKind where
  | alreadyExists
  | notFound
  | wouldBlock
  | other
  deriving DecidableEq, Repr

/-- A Rust `io::Error`: a kind together with its message. -/
structure IoError where
  kind : ErrorKind
  msg : String
  deriving DecidableEq, Repr

/-- Rust `io::Result<A>`. -/
abbrev IoResult (A : Type) := Except IoError A

/-- Caller-assigned opaque identifier (`Token(usize)` in the source). -/
structure Token where
  val : Nat
  deriving DecidableEq, Repr

/-- Interest bit-set over readable/writable. -/
structure Interest where
  readable : Bool
  writable : Bool
  deriving DecidableEq, Repr

/-! ## SelectorId — the debug association state machine (src/io_source.rs) -/

namespace SelectorId

/-- Value of `id` if a `SelectorId` is not associated with any selector.
Valid selector ids start at 1 (src/io_source.rs line 278). -/
def UNASSOCIATED : Nat := 0

/-- `SelectorId::new` (src/io_source.rs lines 283-287): the atomic starts
at `UNASSOCIATED`. -/
def new : Nat := UNASSOCIATED

/-- Valid selector ids start at 1 (src/io_source.rs lines 278-279). -/
def isValid (n : Nat) : Prop := 1 ≤ n

/-- `SelectorId::associate` (src/io_source.rs lines 293-305).  The source
does `self.id.swap(registry_id)` first and only then inspects the previous
value, so the stored id becomes `registry_id` on both paths. -/
def associate (id registry_id : Nat) : IoResult Unit × Nat :=
  let previous_id := id
  if previous_id = UNASSOCIATED then
    (.ok (), registry_id)
  else
    (.error ⟨.alreadyExists, "I/O source already registered with a `Registry`"⟩, registry_id)

/-- `SelectorId::check_association` (src/io_source.rs lines 311-328): a
pure load followed by the three-way comparison; no state change. -/
def check_association (id registry_id : Nat) : IoResult Unit :=
  if id = registry_id then
    .ok ()
  else if id = UNASSOCIATED then
    .error ⟨.notFound, "I/O source not registered with `Registry`"⟩
  else
    .error ⟨.alreadyExists, "I/O source already registered with a different `Registry`"⟩

/-- `SelectorId::remove_association` (src/io_source.rs lines 333-345).  The
source does `self.id.swap(UNASSOCIATED)` first and only then compares the
previous value, so the stored id becomes `UNASSOCIATED` on both paths. -/
def remove_association (id registry_id : Nat) : IoResult Unit × Nat :=
  let previous_id := id
  if previous_id = registry_id then
    (.ok (), UNASSOCIATED)
  else
    (.error ⟨.notFound, "I/O source not registered with `Registry`"⟩, UNASSOCIATED)

end SelectorId

/-! ## The sys layer, modelled from the spec where needed -/

/-- Modelled from the spec: `sys::IoSourceState` is not under src/.  The
spec only requires it to carry the per-handle rearm bookkeeping used by the
retry entry point, so it is modelled as the rearm flag. -/
structure IoSourceState where
  needsRearm : Bool
  deriving DecidableEq, Repr

/-- Modelled from the spec: `sys::IoSourceState::new` starts with no
pending rearm. -/
def IoSourceState.new : IoSourceState := ⟨false⟩

/-- Modelled from the spec: `sys::IoSourceState::do_io` is not under src/.
Per the spec (§4.1), the retry entry point applies the operation to the
wrapped handle and returns its result unchanged to the caller, performing
only the would-block rearm bookkeeping as a side effect. -/
def IoSourceState.do_io {T R : Type} (st : IoSourceState) (f : T → IoResult R)
    (io : T) : IoResult R × IoSourceState :=
  let res := f io
  match res with
  | .error e => if e.kind = .wouldBlock then (res, ⟨true⟩) else (res, st)
  | .ok _ => (res, st)

/-- Modelled from the spec: the `Registry` collaborator is external (§2, §6).
It exposes a stable selector identity, the forwarded sys-level
register/reregister/deregister results, and the waker facilities: the
result of allocating a wake signal and the result of the signal write. -/
structure Registry where
  selectorId : Nat
  sysRegister : Nat → Token → Interest → IoResult Unit
  sysReregister : Nat → Token → Interest → IoResult Unit
  sysDeregister : Nat → IoResult Unit
  allocSignal : IoResult Unit
  signalWrite : IoResult Unit

/-! ## IoSource (src/io_source.rs) -/

/-- `IoSource<T>` (src/io_source.rs lines 64-76): the sys state, the
wrapped handle, and the debug-assertions `SelectorId` (held as its `Nat`
value). -/
structure IoSource (T : Type) where
  state : IoSourceState
  inner : T
  selector_id : Nat

/-- `IoSource::new` (src/io_source.rs lines 80-87). -/
def IoSource.new {T : Type} (io : T) : IoSource T :=
  { state := IoSourceState.new, inner := io, selector_id := SelectorId.new }

/-- `IoSource::do_io` (src/io_source.rs lines 102-107): delegates to
`state.do_io(f, &self.inner)`. -/
def IoSource.do_io {T R : Type} (s : IoSource T) (f : T → IoResult R) :
    IoResult R × IoSource T :=
  let p := IoSourceState.do_io s.state f s.inner
  (p.1, { s with state := p.2 })

/-- `IoSource::into_inner` (src/io_source.rs lines 121-123). -/
def IoSource.into_inner {T : Type} (s : IoSource T) : T := s.inner

/-- `event::Source::register` for `IoSource` (src/io_source.rs lines
155-165, unix): `self.selector_id.associate(registry)?` — whose swap has
updated the stored id even when it errors — then forwarding to
`state.register` with the wrapped handle's raw fd.  `asRawFd` embeds the
`T: AsRawFd` bound. -/
def IoSource.register {T : Type} (asRawFd : T → Nat) (s : IoSource T)
    (registry : Registry) (token : Token) (interests : Interest) :
    IoResult Unit × IoSource T :=
  let p := SelectorId.associate s.selector_id registry.selectorId
  match p.1 with
  | .error e => (.error e, { s with selector_id := p.2 })
  | .ok _ =>
    (registry.sysRegister (asRawFd s.inner) token interests,
     { s with selector_id := p.2 })

/-- `event::Source::reregister` for `IoSource` (src/io_source.rs lines
167-177, unix): `check_association` (no state change), then forwarding. -/
def IoSource.reregister {T : Type} (asRawFd : T → Nat) (s : IoSource T)
    (registry : Registry) (token : Token) (interests : Interest) :
    IoResult Unit × IoSource T :=
  match SelectorId.check_association s.selector_id registry.selectorId with
  | .error e => (.error e, s)
  | .ok _ => (registry.sysReregister (asRawFd s.inner) token interests, s)

/-- `event::Source::deregister` for `IoSource` (src/io_source.rs lines
179-183, unix): `remove_association` — whose swap has reset the stored id
even when it errors — then forwarding. -/
def IoSource.deregister {T : Type} (asRawFd : T → Nat) (s : IoSource T)
    (registry : Registry) : IoResult Unit × IoSource T :=
  let p := SelectorId.remove_association s.selector_id registry.selectorId
  match p.1 with
  | .error e => (.error e, { s with selector_id := p.2 })
  | .ok _ => (registry.sysDeregister (asRawFd s.inner), { s with selector_id := p.2 })

/-! ## Waker (src/waker.rs) -/

/-- Modelled from the spec: `sys::Waker` is not under src/.  Per the spec
(§3, §4.2) it is a platform signal object bound at construction to one
(selector identity, token) pair; the result of its signal write is carried
as an oracle. -/
structure SysWaker where
  selectorId : Nat
  token : Token
  writeResult : IoResult Unit

/-- Modelled from the spec: `sys::Waker::new(selector, token)` allocates
the underlying signal resource; on allocation failure the I/O error is
propagated, otherwise the signal is bound to the selector and token. -/
def SysWaker.new (registry : Registry) (token : Token) : IoResult SysWaker :=
  match registry.allocSignal with
  | .error e => .error e
  | .ok _ => .ok ⟨registry.selectorId, token, registry.signalWrite⟩

/-- Modelled from the spec: `sys::Waker::wake` writes to the underlying
signal mechanism and fails exactly when that write fails. -/
def SysWaker.wake (w : SysWaker) : IoResult Unit := w.writeResult

/-- `Waker` (src/waker.rs lines 88-91): a wrapper around `sys::Waker`. -/
structure Waker where
  inner : SysWaker

/-- `Waker::new` (src/waker.rs lines 102-106):
`sys::Waker::new(registry.selector(), token).map(|inner| Waker { inner })`. -/
def Waker.new (registry : Registry) (token : Token) : IoResult Waker :=
  Except.map Waker.mk (SysWaker.new registry token)

/-- `Waker::wake` (src/waker.rs lines 112-114): `self.inner.wake()`. -/
def Waker.wake (w : Waker) : IoResult Unit := SysWaker.wake w.inner

/-! ## Wake-signal delivery, modelled from the spec (for the temporal claim) -/

/-- A readiness event as delivered by the polling wait: its token and
whether its readiness indicates readable. -/
structure Event where
  token : Token
  readable : Bool
  deriving DecidableEq, Repr

/-- Modelled from the spec: the poll-side view of an allocated wake signal
(the polling engine is an external collaborator, §1, §6).  It holds the
bound token and whether a wake is pending. -/
structure WakeSignal where
  token : Token
  pending : Bool
  deriving DecidableEq, Repr

/-- Modelled from the spec: triggering the wake signal marks it pending;
further triggers coalesce (§4.2 coalescing semantics). -/
def WakeSignal.trigger (w : WakeSignal) : WakeSignal := { w with pending := true }

/-- Modelled from the spec: a blocking wait that observes the signal
pending delivers one readiness event with the bound token and readable
readiness and drains the signal; otherwise it delivers nothing (§4.2, §6
polling-wait collaborator). -/
def WakeSignal.pollWait (w : WakeSignal) : List Event × WakeSignal :=
  if w.pending then ([⟨w.token, true⟩], { w with pending := false })
  else ([], w)

/-! ## Concrete fixtures used by counterexamples and witnesses -/

/-- The identity raw-fd view for adapters wrapping a bare `Nat` handle. -/
def rawId : Nat → Nat := fun n => n

/-- A concrete token. -/
def tok0 : Token := ⟨0⟩

/-- Read interest. -/
def intR : Interest := ⟨true, false⟩

/-- A registry with selector id 1 whose sys-level calls all succeed. -/
def reg1ok : Registry :=
  ⟨1, fun _ _ _ => .ok (), fun _ _ _ => .ok (), fun _ => .ok (), .ok (), .ok ()⟩

/-- A registry with selector id 2 whose sys-level calls all succeed. -/
def reg2ok : Registry :=
  ⟨2, fun _ _ _ => .ok (), fun _ _ _ => .ok (), fun _ => .ok (), .ok (), .ok ()⟩

/-- A registry with selector id 1 whose sys-level register fails. -/
def reg1sysFail : Registry :=
  ⟨1, fun _ _ _ => .error ⟨.other, "sys register failed"⟩,
   fun _ _ _ => .ok (), fun _ => .ok (), .ok (), .ok ()⟩

/-- A registry with selector id 1 that cannot allocate a wake signal. -/
def regAllocFail : Registry :=
  ⟨1, fun _ _ _ => .ok (), fun _ _ _ => .ok (), fun _ => .ok (),
   .error ⟨.other, "alloc failed"⟩, .ok ()⟩

/-- An adapter around the handle 5, currently associated with selector id 1. -/
def srcAssoc1 : IoSource Nat := ⟨IoSourceState.new, 5, 1⟩

/-! ## Claims -/

/-- C1 counterexample: an adapter associated with registry id 1, registered
against the different registry id 2, does fail with `AlreadyExists`, but its
association state afterwards is NOT still 1: the failed call's swap left it
at 2. -/
theorem C1_counterexample :
    (IoSource.register rawId srcAssoc1 reg2ok tok0 intR).1 =
        .error ⟨.alreadyExists, "I/O source already registered with a `Registry`"⟩ ∧
    ¬ (IoSource.register rawId srcAssoc1 reg2ok tok0 intR).2.selector_id = 1 := by
  exact ⟨rfl, by decide⟩

/-- C1 (amended): registering an already-associated adapter against another
registry fails with `AlreadyExists`, but the association state afterwards is
associated with the NEW registry: the failed call's unconditional swap
records the new registry id. -/
theorem C1_register_second_registry {T : Type} (asRawFd : T → Nat)
    (s : IoSource T) (r2 : Registry) (t : Token) (i : Interest)
    (h : s.selector_id ≠ SelectorId.UNASSOCIATED) :
    (IoSource.register asRawFd s r2 t i).1 =
        .error ⟨.alreadyExists, "I/O source already registered with a `Registry`"⟩ ∧
    (IoSource.register asRawFd s r2 t i).2.selector_id = r2.selectorId := by
  simp [IoSource.register, SelectorId.associate, h]

/-- C1 witness: the amended statement at a concrete associated adapter. -/
theorem C1_register_second_registry_witness :
    (IoSource.register rawId srcAssoc1 reg2ok tok0 intR).1 =
        .error ⟨.alreadyExists, "I/O source already registered with a `Registry`"⟩ ∧
    (IoSource.register rawId srcAssoc1 reg2ok tok0 intR).2.selector_id = reg2ok.selectorId :=
  C1_register_second_registry rawId srcAssoc1 reg2ok tok0 intR (by decide)

/-- C2 counterexample: deregistering an adapter associated with registry id 1
against the different registry id 2 does fail with `NotFound`, but it DOES
change the association state: the swap reset it to unassociated. -/
theorem C2_counterexample :
    (IoSource.deregister rawId srcAssoc1 reg2ok).1 =
        .error ⟨.notFound, "I/O source not registered with `Registry`"⟩ ∧
    ¬ (IoSource.deregister rawId srcAssoc1 reg2ok).2.selector_id = 1 := by
  exact ⟨rfl, by decide⟩

/-- C2 (amended): deregistering an adapter that is unassociated or associated
with a registry other than R fails with `NotFound`, and the association state
afterwards is unassociated — unchanged when the adapter was already
unassociated, but reset (the previous association is lost) when it was
associated with a different registry. -/
theorem C2_deregister_mismatch {T : Type} (asRawFd : T → Nat)
    (s : IoSource T) (r : Registry)
    (h : s.selector_id ≠ r.selectorId) :
    (IoSource.deregister asRawFd s r).1 =
        .error ⟨.notFound, "I/O source not registered with `Registry`"⟩ ∧
    (IoSource.deregister asRawFd s r).2.selector_id = SelectorId.UNASSOCIATED ∧
    (IoSource.deregister asRawFd s r).2.inner = s.inner := by
  simp [IoSource.deregister, SelectorId.remove_association, h]

/-- C2 witness: the amended statement at a concrete never-registered adapter. -/
theorem C2_deregister_mismatch_witness :
    (IoSource.deregister rawId (IoSource.new 5) reg1ok).1 =
        .error ⟨.notFound, "I/O source not registered with `Registry`"⟩ ∧
    (IoSource.deregister rawId (IoSource.new 5) reg1ok).2.selector_id = SelectorId.UNASSOCIATED ∧
    (IoSource.deregister rawId (IoSource.new 5) reg1ok).2.inner = (IoSource.new 5).inner :=
  C2_deregister_mismatch rawId (IoSource.new 5) reg1ok (by decide)

/-- C3 counterexample: registering a fresh (unassociated) adapter with a
registry whose sys-level register fails returns that forwarding error, yet
the adapter does NOT remain unassociated: the association was recorded
before the forwarded call. -/
theorem C3_counterexample :
    (IoSource.register rawId (IoSource.new 5) reg1sysFail tok0 intR).1 =
        .error ⟨.other, "sys register failed"⟩ ∧
    ¬ (IoSource.register rawId (IoSource.new 5) reg1sysFail tok0 intR).2.selector_id =
        SelectorId.UNASSOCIATED := by
  exact ⟨rfl, by decide⟩

/-- C3 (amended): register fails with `AlreadyExists` when the adapter is not
unassociated, and otherwise returns exactly the result of forwarding to the
registry with the wrapped handle's raw value; but in every case (including a
forwarding failure) the association state afterwards is associated with the
given registry, because the swap precedes the forwarded call. -/
theorem C3_register_behaviour {T : Type} (asRawFd : T → Nat)
    (s : IoSource T) (r : Registry) (t : Token) (i : Interest) :
    (IoSource.register asRawFd s r t i).1 =
      (if s.selector_id = SelectorId.UNASSOCIATED
       then r.sysRegister (asRawFd s.inner) t i
       else .error ⟨.alreadyExists, "I/O source already registered with a `Registry`"⟩) ∧
    (IoSource.register asRawFd s r t i).2.selector_id = r.selectorId ∧
    (IoSource.register asRawFd s r t i).2.inner = s.inner := by
  by_cases h : s.selector_id = SelectorId.UNASSOCIATED <;>
    simp [IoSource.register, SelectorId.associate, h]

/-- C4: reregister fails with `NotFound` when the adapter is unassociated,
fails with `AlreadyExists` when it is associated with a different registry,
otherwise returns exactly the forwarded result; and in every case (success
and both failures) the adapter — association state included — is unchanged.
Stated for registries with a valid (nonzero) selector id. -/
theorem C4_reregister_behaviour {T : Type} (asRawFd : T → Nat)
    (s : IoSource T) (r : Registry) (t : Token) (i : Interest)
    (hr : r.selectorId ≠ SelectorId.UNASSOCIATED) :
    (IoSource.reregister asRawFd s r t i).1 =
      (if s.selector_id = SelectorId.UNASSOCIATED
       then .error ⟨.notFound, "I/O source not registered with `Registry`"⟩
       else if s.selector_id = r.selectorId
       then r.sysReregister (asRawFd s.inner) t i
       else .error ⟨.alreadyExists, "I/O source already registered with a different `Registry`"⟩) ∧
    (IoSource.reregister asRawFd s r t i).2 = s := by
  have hr' : ¬ SelectorId.UNASSOCIATED = r.selectorId := fun hc => hr hc.symm
  by_cases h0 : s.selector_id = SelectorId.UNASSOCIATED
  · simp [IoSource.reregister, SelectorId.check_association, h0, hr']
  · by_cases heq : s.selector_id = r.selectorId <;>
      simp [IoSource.reregister, SelectorId.check_association, h0, heq, hr]

/-- C4 witness: the claim's statement at a concrete unassociated adapter and
a registry with selector id 1. -/
theorem C4_reregister_behaviour_witness :
    (IoSource.reregister rawId (IoSource.new 5) reg1ok tok0 intR).1 =
      (if (IoSource.new 5).selector_id = SelectorId.UNASSOCIATED
       then .error ⟨.notFound, "I/O source not registered with `Registry`"⟩
       else if (IoSource.new 5).selector_id = reg1ok.selectorId
       then reg1ok.sysReregister (rawId (IoSource.new 5).inner) tok0 intR
       else .error ⟨.alreadyExists, "I/O source already registered with a different `Registry`"⟩) ∧
    (IoSource.reregister rawId (IoSource.new 5) reg1ok tok0 intR).2 = IoSource.new 5 :=
  C4_reregister_behaviour rawId (IoSource.new 5) reg1ok tok0 intR (by decide)

/-- C5: after a successful register with registry R followed by a successful
deregister with the same R, the association state is unassociated again, and
a subsequent register against the same R (same token and interests) also
succeeds. -/
theorem C5_register_deregister_roundtrip {T : Type} (asRawFd : T → Nat)
    (s : IoSource T) (r : Registry) (t : Token) (i : Interest)
    (h1 : (IoSource.register asRawFd s r t i).1 = .ok ())
    (_h2 : (IoSource.deregister asRawFd (IoSource.register asRawFd s r t i).2 r).1 = .ok ()) :
    (IoSource.deregister asRawFd (IoSource.register asRawFd s r t i).2 r).2.selector_id =
        SelectorId.UNASSOCIATED ∧
    (IoSource.register asRawFd
        (IoSource.deregister asRawFd (IoSource.register asRawFd s r t i).2 r).2
        r t i).1 = .ok () := by
  by_cases h : s.selector_id = SelectorId.UNASSOCIATED
  · have hreg : r.sysRegister (asRawFd s.inner) t i = .ok () := by
      simpa [IoSource.register, SelectorId.associate, h] using h1
    simp [IoSource.register, IoSource.deregister, SelectorId.associate,
          SelectorId.remove_association, h, hreg]
  · exfalso
    simp [IoSource.register, SelectorId.associate, h] at h1

/-- C5 witness: the round-trip at a concrete fresh adapter and an
all-succeeding registry. -/
theorem C5_register_deregister_roundtrip_witness :
    (IoSource.deregister rawId (IoSource.register rawId (IoSource.new 5) reg1ok tok0 intR).2
        reg1ok).2.selector_id = SelectorId.UNASSOCIATED ∧
    (IoSource.register rawId
        (IoSource.deregister rawId
          (IoSource.register rawId (IoSource.new 5) reg1ok tok0 intR).2 reg1ok).2
        reg1ok tok0 intR).1 = .ok () :=
  C5_register_deregister_roundtrip rawId (IoSource.new 5) reg1ok tok0 intR rfl rfl

/-- C6: the retry entry point applies the operation to the wrapped handle and
hands its result (success value or error) back unchanged — no suppression,
transformation or reinterpretation — and touches neither the wrapped handle
nor the association bookkeeping, only the rearm state. -/
theorem C6_do_io_passthrough {T R : Type} (s : IoSource T) (f : T → IoResult R) :
    ( IoSource.do_io s f).1 = f s.inner ∧
    ( IoSource.do_io s f).2.inner = s.inner ∧
    ( IoSource.do_io s f).2.selector_id = s.selector_id := by
  cases hf : f s.inner with
  | error e =>
      by_cases hk : e.kind = ErrorKind.wouldBlock <;>
        simp [IoSource.do_io, IoSourceState.do_io, hf, hk]
  | ok a => simp [IoSource.do_io, IoSourceState.do_io, hf]

/-- C7: waker construction binds exactly the given registry's selector
identity and the given token; when the registry cannot allocate the signal
resource the I/O error is propagated and no waker is produced; and `wake`
returns exactly the underlying signal write's result, so it errors precisely
when that write fails and succeeds otherwise. -/
theorem C7_waker_new_and_wake (r : Registry) (t : Token) :
    (∀ e, r.allocSignal = .error e → Waker.new r t = .error e) ∧
    (r.allocSignal = .ok () →
      ∃ w, Waker.new r t = .ok w ∧ w.inner.selectorId = r.selectorId ∧
        w.inner.token = t ∧ Waker.wake w = r.signalWrite) ∧
    (∀ w : Waker, Waker.wake w = w.inner.writeResult) := by
  refine ⟨fun e he => ?_, fun ha => ?_, fun w => rfl⟩
  · simp [Waker.new, SysWaker.new, he, Except.map]
  · exact ⟨⟨⟨r.selectorId, t, r.signalWrite⟩⟩,
      by simp [Waker.new, SysWaker.new, ha, Except.map], rfl, rfl, rfl⟩

/-- C7 witness: construction fails on a registry that cannot allocate the
signal, and succeeds — bound to selector id and token — on one that can. -/
theorem C7_waker_new_and_wake_witness :
    Waker.new regAllocFail tok0 = .error ⟨.other, "alloc failed"⟩ ∧
    (∃ w, Waker.new reg1ok tok0 = .ok w ∧ w.inner.selectorId = reg1ok.selectorId ∧
      w.inner.token = tok0 ∧ Waker.wake w = reg1ok.signalWrite) :=
  ⟨(C7_waker_new_and_wake regAllocFail tok0).1 ⟨.other, "alloc failed"⟩ rfl,
   (C7_waker_new_and_wake reg1ok tok0).2.1 rfl⟩

/-- Triggering the wake signal never changes the bound token. -/
theorem trigger_iterate_token (w : WakeSignal) (n : Nat) :
    (WakeSignal.trigger^[n] w).token = w.token := by
  induction n generalizing w with
  | zero => rfl
  | succ k ih =>
      rw [Function.iterate_succ_apply]
      exact ih (WakeSignal.trigger w)

/-- After at least one trigger the signal is pending. -/
theorem trigger_iterate_pending (w : WakeSignal) (n : Nat) (h : 1 ≤ n) :
    (WakeSignal.trigger^[n] w).pending = true := by
  induction n generalizing w with
  | zero => exact absurd h (by decide)
  | succ k _ =>
      rw [Function.iterate_succ_apply']
      rfl

/-- C8: after `wake` has been triggered any number n ≥ 1 of times, the next
blocking wait delivers exactly one readiness event, carrying the token bound
at construction with readable readiness: the signal is never lost, and the n
triggers coalesce into a single event. -/
theorem C8_wake_delivery (w : WakeSignal) (n : Nat) (h : 1 ≤ n) :
    ( WakeSignal.pollWait (WakeSignal.trigger^[n] w)).1 = [⟨w.token, true⟩] := by
  unfold WakeSignal.pollWait
  rw [trigger_iterate_pending w n h, trigger_iterate_token w n]
  simp

/-- C8 witness: three wakes on a concrete idle signal coalesce into one
readable event with the bound token. -/
theorem C8_wake_delivery_witness :
    ( WakeSignal.pollWait (WakeSignal.trigger^[3] ⟨⟨7⟩, false⟩)).1 =
      [⟨(⟨⟨7⟩, false⟩ : WakeSignal).token, true⟩] :=
  C8_wake_delivery ⟨⟨7⟩, false⟩ 3 (by decide)

/-- C9: wrapping a handle and immediately taking it back is the identity —
`into_inner` returns exactly the value given to `new`, discarding only the
adapter's bookkeeping. -/
theorem C9_new_into_inner_roundtrip {T : Type} (io : T) :
    IoSource.into_inner (IoSource.new io) = io := rfl

/-- C10: a freshly constructed adapter starts unassociated, with the
sentinel selector id 0, and the sentinel is disjoint from every valid
selector id (valid ids start at 1), so an unassociated adapter can never be
mistaken for an associated one. -/
theorem C10_fresh_unassociated {T : Type} (io : T) :
    (IoSource.new io).selector_id = SelectorId.UNASSOCIATED ∧
    ∀ n : Nat, SelectorId.isValid n → n ≠ SelectorId.UNASSOCIATED := by
  refine ⟨rfl, fun n hn => ?_⟩
  have h1 : 1 ≤ n := hn
  intro hc
  rw [hc] at h1
  exact Nat.not_succ_le_zero 0 h1

/-- C10 witness: the statement at a concrete handle and the valid id 1. -/
theorem C10_fresh_unassociated_witness :
    (IoSource.new (5 : Nat)).selector_id = SelectorId.UNASSOCIATED ∧
    (1 : Nat) ≠ SelectorId.UNASSOCIATED :=
  ⟨(C10_fresh_unassociated (5 : Nat)).1,
   (C10_fresh_unassociated (5 : Nat)).2 1 (Nat.le_refl 1)⟩

end MioSpec
